import Mathlib

/-!
# Superheroes comparison API — a shallow embedding

This file embeds the core logic of `backend/src/server.ts`: the three
read endpoints (`/api/superheroes`, `/api/superheroes/:id`,
`/api/superheroes/:id/powerstats`) and the comparison endpoint
(`/api/superheroes/compare`), together with the fragment of JavaScript
semantics the endpoint code relies on (`Number(string)` coercion and
`String(number)` rendering).

JavaScript numbers that can arise from `Number()` on a decimal string are
modelled exactly, as canonical base-10 scaled integers (`JsNum.finite mant
expo` denotes `mant · 10 ^ expo`, with `mant` not divisible by 10 unless the
value is 0).  This is exact decimal arithmetic: we do not model float64
rounding or overflow, which is faithful for identifiers in the float64-exact
range the catalog uses.
-/

/-! ## JavaScript `Number(string)` coercion (ECMAScript StringToNumber) -/

/-- The characters JavaScript trims around a numeric string: space, tab,
line feed, carriage return, vertical tab, form feed, NBSP, BOM. -/
def isJsWhitespace (c : Char) : Bool :=
  c == ' ' || c == '\t' || c == '\n' || c == '\r' ||
  c == Char.ofNat 11 || c == Char.ofNat 12 || c == Char.ofNat 160 ||
  c == Char.ofNat 65279

/-- A JavaScript number as produced by `Number()` on a string: NaN is
represented by `Option.none` at use sites; finite values are canonical
`mant · 10 ^ expo` with `mant` never a multiple of 10 (and `(0, 0)` for 0),
so that JavaScript `===` on these values is plain equality. -/
inductive JsNum
  | finite (mant expo : Int)
  | posInf
  | negInf
deriving DecidableEq, Repr

/-- Divide factors of 10 out of `m` (which stays nonzero), bumping the
exponent; `fuel` bounds the recursion and `m.natAbs` is always enough. -/
def stripTens : Nat → Int → Int → Int × Int
  | 0, m, e => (m, e)
  | fuel + 1, m, e =>
      if m % 10 = 0 then stripTens fuel (m / 10) (e + 1) else (m, e)

/-- Canonical form of the value `m · 10 ^ e`. -/
def canonDec (m e : Int) : JsNum :=
  if m = 0 then .finite 0 0
  else
    let p := stripTens m.natAbs m e
    .finite p.1 p.2

/-- The JavaScript number equal to the integer `n`. -/
def JsNum.ofInt (n : Int) : JsNum := canonDec n 0

/-- Numeric value of a list of decimal digit characters. -/
def digitsToNat (cs : List Char) : Nat :=
  cs.foldl (fun a c => 10 * a + (c.toNat - 48)) 0

def isBinDigitChar (c : Char) : Bool := c == '0' || c == '1'

def isOctDigitChar (c : Char) : Bool := '0' ≤ c && c ≤ '7'

def isHexDigitChar (c : Char) : Bool :=
  c.isDigit || ('a' ≤ c && c ≤ 'f') || ('A' ≤ c && c ≤ 'F')

def hexDigitVal (c : Char) : Nat :=
  if c.isDigit then c.toNat - 48
  else if 'a' ≤ c && c ≤ 'f' then c.toNat - 87
  else c.toNat - 55

/-- Numeric value of digit characters in base `b` via `val`. -/
def digitsToNatBase (b : Nat) (val : Char → Nat) (cs : List Char) : Nat :=
  cs.foldl (fun a c => b * a + val c) 0

/-- `0x…` / `0o…` / `0b…` NonDecimalIntegerLiteral (never signed). -/
def parseNonDecimal (cs : List Char) : Option Nat :=
  match cs with
  | '0' :: b :: ds =>
    if (b == 'x' || b == 'X') && !ds.isEmpty && ds.all isHexDigitChar then
      some (digitsToNatBase 16 hexDigitVal ds)
    else if (b == 'o' || b == 'O') && !ds.isEmpty && ds.all isOctDigitChar then
      some (digitsToNatBase 8 (fun c => c.toNat - 48) ds)
    else if (b == 'b' || b == 'B') && !ds.isEmpty && ds.all isBinDigitChar then
      some (digitsToNatBase 2 (fun c => c.toNat - 48) ds)
    else none
  | _ => none

/-- A run of decimal digits that must make up the whole remaining input. -/
def parseAllDigits (cs : List Char) : Option Nat :=
  if !cs.isEmpty && cs.all Char.isDigit then some (digitsToNat cs) else none

/-- An optionally signed run of decimal digits (an exponent's payload). -/
def parseSignedDigits : List Char → Option Int
  | '+' :: ds => (parseAllDigits ds).map Int.ofNat
  | '-' :: ds => (parseAllDigits ds).map (fun n => -(n : Int))
  | ds => (parseAllDigits ds).map Int.ofNat

/-- The ExponentPart: empty, or `e`/`E` followed by a signed digit run
consuming the rest of the input. -/
def parseExponentPart : List Char → Option Int
  | [] => some 0
  | 'e' :: ds => parseSignedDigits ds
  | 'E' :: ds => parseSignedDigits ds
  | _ => none

/-- StrUnsignedDecimalLiteral (without `Infinity`): digits, optional
fraction, optional exponent.  Returns the value as `(mant, expo)`,
not yet canonical. -/
def parseUnsignedDecimal (cs : List Char) : Option (Int × Int) :=
  let intDs := cs.takeWhile Char.isDigit
  let rest := cs.dropWhile Char.isDigit
  match rest with
  | '.' :: afterDot =>
    let fracDs := afterDot.takeWhile Char.isDigit
    let rest2 := afterDot.dropWhile Char.isDigit
    if intDs.isEmpty && fracDs.isEmpty then none
    else
      (parseExponentPart rest2).map (fun e =>
        ((digitsToNat (intDs ++ fracDs) : Int), e - fracDs.length))
  | _ =>
    if intDs.isEmpty then none
    else (parseExponentPart rest).map (fun e => ((digitsToNat intDs : Int), e))

/-- ECMAScript `Number(string)` restricted to exact decimal arithmetic:
whitespace-trimmed; empty → 0; `Infinity`, hex/octal/binary and signed
decimal literals as in StringNumericLiteral; `none` is NaN. -/
def jsStringToNumber (s : String) : Option JsNum :=
  let cs := ((s.data.dropWhile isJsWhitespace).reverse.dropWhile
      isJsWhitespace).reverse
  if cs.isEmpty then some (.finite 0 0)
  else
    match parseNonDecimal cs with
    | some n => some (canonDec n 0)
    | none =>
      let signed : Bool × List Char :=
        match cs with
        | '+' :: r => (false, r)
        | '-' :: r => (true, r)
        | r => (false, r)
      let neg := signed.1
      let body := signed.2
      if body = "Infinity".data then
        some (if neg then .negInf else .posInf)
      else
        match parseUnsignedDecimal body with
        | some p => some (canonDec (if neg then -p.1 else p.1) p.2)
        | none => none

/-- `Number(req.query.x)`: an absent query parameter is `undefined`, and
`Number(undefined)` is NaN. -/
def jsNumberOfQuery : Option String → Option JsNum
  | none => none
  | some s => jsStringToNumber s

/-- `String(n)` for an integer JavaScript number (decimal rendering). -/
def jsIntToString (n : Int) : String := toString n

/-! ## Data model (catalog source format, §server.ts JSON shape) -/

/-- One of the six powerstat categories, in no particular order here;
`categoriesOrder` fixes the canonical order. -/
inductive Category
  | intelligence
  | strength
  | speed
  | durability
  | power
  | combat
deriving DecidableEq, Repr

/-- The `powerstats` object: exactly the six category keys, integer values. -/
structure Statline where
  intelligence : Int
  strength : Int
  speed : Int
  durability : Int
  power : Int
  combat : Int
deriving DecidableEq, Repr

/-- `hero.powerstats[cat]`. -/
def Statline.get (s : Statline) : Category → Int
  | .intelligence => s.intelligence
  | .strength => s.strength
  | .speed => s.speed
  | .durability => s.durability
  | .power => s.power
  | .combat => s.combat

/-- The JSON key of a category. -/
def Category.keyName : Category → String
  | .intelligence => "intelligence"
  | .strength => "strength"
  | .speed => "speed"
  | .durability => "durability"
  | .power => "power"
  | .combat => "combat"

/-- One catalog record: numeric `id`, `name`, `image`, `powerstats`. -/
structure Hero where
  id : Int
  name : String
  image : String
  powerstats : Statline
deriving DecidableEq, Repr

/-- The `categoriesOrder` array of server.ts (lines 98–105). -/
def categoriesOrder : List Category :=
  [.intelligence, .strength, .speed, .durability, .power, .combat]

/-- Result of `loadSuperheroes()`: the parsed array, or a rejection
(file unreadable or JSON invalid) caught by the endpoint's `catch`. -/
inductive LoadResult
  | ok (superheroes : List Hero)
  | err
deriving DecidableEq

/-! ## The comparison computation (server.ts lines 98–127) -/

/-- A JSON value as used in the response: a number or a string
(the `winner` fields mix the two). -/
inductive JsonVal
  | num (n : Int)
  | str (s : String)
deriving DecidableEq, Repr

/-- One element of the `categories` response array. -/
structure CategoryResult where
  name : String
  winner : JsonVal
  id1_value : Int
  id2_value : Int
deriving DecidableEq, Repr

/-- The comparison response body. -/
structure ComparisonResult where
  id1 : JsNum
  id2 : JsNum
  categories : List CategoryResult
  overall_winner : JsonVal
deriving DecidableEq, Repr

/-- The `winner` assignment of the per-category loop body
(lines 111–120): `1` if the first value is larger, `2` if the second is,
`'tie'` otherwise. -/
def winnerIf (a b : Int) : JsonVal :=
  if a > b then .num 1 else if b > a then .num 2 else .str "tie"

/-- The loop body of `categoriesOrder.map` (lines 108–122) for one
category. -/
def compareCat (hero1 hero2 : Hero) (cat : Category) : CategoryResult :=
  let id1_value := hero1.powerstats.get cat
  let id2_value := hero2.powerstats.get cat
  ⟨cat.keyName, winnerIf id1_value id2_value, id1_value, id2_value⟩

/-- The `categories` array (lines 108–122). -/
def compareCategories (hero1 hero2 : Hero) : List CategoryResult :=
  categoriesOrder.map (compareCat hero1 hero2)

/-- `id1Wins` after the loop: the counter is bumped exactly when the
loop sets `winner = 1`, so it counts those categories. -/
def id1WinsOf (cats : List CategoryResult) : Nat :=
  cats.countP (fun c => decide (c.winner = .num 1))

/-- `id2Wins` after the loop. -/
def id2WinsOf (cats : List CategoryResult) : Nat :=
  cats.countP (fun c => decide (c.winner = .num 2))

/-- `overall_winner` (lines 123–126). -/
def overallWinner (cats : List CategoryResult) : JsonVal :=
  if id1WinsOf cats > id2WinsOf cats then .num 1
  else if id2WinsOf cats > id1WinsOf cats then .num 2
  else .str "tie"

/-- The 200 response body of the compare endpoint (line 127): the parsed
ids echoed back, the categories array, and the overall winner. -/
def compareResult (id1 id2 : JsNum) (hero1 hero2 : Hero) : ComparisonResult :=
  ⟨id1, id2, compareCategories hero1 hero2,
    overallWinner (compareCategories hero1 hero2)⟩

/-! ## Endpoints -/

/-- Outcome of `GET /api/superheroes/compare`: 200 with a body, 400, 404
(with the `error` field of the JSON body), or 500. -/
inductive CompareOutcome
  | ok (result : ComparisonResult)
  | validationError (error : String)
  | notFound (error : String)
  | internalError
deriving DecidableEq

/-- `h.id === id1` where `id1 = Number(req.query.id1)` (lines 92–93):
strict numeric equality, which on canonical `JsNum` is plain equality. -/
def matchesId (v : JsNum) (h : Hero) : Bool := v == JsNum.ofInt h.id

/-- The compare endpoint handler (server.ts lines 84–132).  `load` is the
outcome of `loadSuperheroes()`; `q1`, `q2` are the raw query parameters
(`none` when absent).  The `isNaN` validation (lines 87–89) happens before
the catalog is consulted. -/
def compareEndpoint (load : LoadResult) (q1 q2 : Option String) :
    CompareOutcome :=
  match jsNumberOfQuery q1, jsNumberOfQuery q2 with
  | some id1, some id2 =>
    match load with
    | .err => .internalError
    | .ok superheroes =>
      match superheroes.find? (matchesId id1),
            superheroes.find? (matchesId id2) with
      | some hero1, some hero2 => .ok (compareResult id1 id2 hero1 hero2)
      | _, _ => .notFound "Superhero not found"
  | _, _ =>
    .validationError "Both id1 and id2 query parameters must be valid numbers."

/-- Outcome of `GET /api/superheroes/:id`. -/
inductive EntityOutcome
  | ok (superhero : Hero)
  | notFound (msg : String)
  | internalError
deriving DecidableEq

/-- Outcome of `GET /api/superheroes/:id/powerstats`. -/
inductive StatsOutcome
  | ok (powerstats : Statline)
  | notFound (msg : String)
  | internalError
deriving DecidableEq

/-- Outcome of `GET /api/superheroes`. -/
inductive ListOutcome
  | ok (superheroes : List Hero)
  | internalError
deriving DecidableEq

/-- `String(hero.id) === String(id)` (lines 147 and 172): `id` is already
a string, so it resolves by decimal rendering of the record's id. -/
def matchesIdString (id : String) (hero : Hero) : Bool :=
  jsIntToString hero.id == id

/-- The single-superhero endpoint handler (server.ts lines 143–157). -/
def getSuperheroEndpoint (load : LoadResult) (id : String) : EntityOutcome :=
  match load with
  | .err => .internalError
  | .ok superheroes =>
    match superheroes.find? (matchesIdString id) with
    | some superhero => .ok superhero
    | none => .notFound "Superhero not found"

/-- The powerstats endpoint handler (server.ts lines 168–182): on a hit it
returns `superhero.powerstats` alone. -/
def getPowerstatsEndpoint (load : LoadResult) (id : String) : StatsOutcome :=
  match load with
  | .err => .internalError
  | .ok superheroes =>
    match superheroes.find? (matchesIdString id) with
    | some superhero => .ok superhero.powerstats
    | none => .notFound "Superhero not found"

/-- The list endpoint handler (server.ts lines 64–72). -/
def getAllEndpoint (load : LoadResult) : ListOutcome :=
  match load with
  | .err => .internalError
  | .ok superheroes => .ok superheroes

/-! ## Concrete data for witnesses (spec §8 scenario values) -/

def heroA : Hero := ⟨1, "A-Bomb", "a.jpg", ⟨100, 18, 23, 28, 32, 32⟩⟩

def heroB : Hero := ⟨2, "B", "b.jpg", ⟨90, 55, 43, 80, 62, 82⟩⟩

def heroTen : Hero := ⟨10, "Ten", "t.jpg", ⟨1, 2, 3, 4, 5, 6⟩⟩

def demoHeroes : List Hero := [heroA, heroB, heroTen]

/-! ## Helper lemmas about the comparison computation -/

lemma winnerIf_eq_first (a b : Int) : winnerIf a b = .num 1 ↔ a > b := by
  unfold winnerIf
  split_ifs <;> simp_all

lemma winnerIf_eq_second (a b : Int) : winnerIf a b = .num 2 ↔ b > a := by
  unfold winnerIf
  split_ifs <;> simp_all
  omega

lemma winnerIf_eq_tie (a b : Int) : winnerIf a b = .str "tie" ↔ a = b := by
  unfold winnerIf
  split_ifs <;> simp_all <;> omega

lemma winnerIf_cases (a b : Int) :
    winnerIf a b = .num 1 ∨ winnerIf a b = .num 2 ∨ winnerIf a b = .str "tie" := by
  unfold winnerIf
  split_ifs <;> simp

lemma mem_compareCategories {h1 h2 : Hero} {c : CategoryResult}
    (hc : c ∈ compareCategories h1 h2) :
    ∃ cat : Category, c = compareCat h1 h2 cat := by
  rcases List.mem_map.mp hc with ⟨cat, _, rfl⟩
  exact ⟨cat, rfl⟩

lemma compareCat_winner_eq (h1 h2 : Hero) (cat : Category) :
    (compareCat h1 h2 cat).winner =
      winnerIf (compareCat h1 h2 cat).id1_value (compareCat h1 h2 cat).id2_value :=
  rfl

lemma overallWinner_cases (cats : List CategoryResult) :
    overallWinner cats = .num 1 ∨ overallWinner cats = .num 2 ∨
      overallWinner cats = .str "tie" := by
  unfold overallWinner
  split_ifs <;> simp

/-! ## C1 -/

/-- C1: in every comparison of two resolved heroes, each of the six
per-category winners is `1` exactly when the first hero's value is strictly
greater, `2` exactly when the second's is strictly greater, and `'tie'`
exactly when the two integer values are equal; moreover the winner depends
only on the pair of values, never on which category (or position) produced
them. -/
theorem c1_per_category_winner :
    (∀ (h1 h2 : Hero) (c : CategoryResult), c ∈ compareCategories h1 h2 →
      ((c.winner = .num 1 ↔ c.id1_value > c.id2_value) ∧
       (c.winner = .num 2 ↔ c.id2_value > c.id1_value) ∧
       (c.winner = .str "tie" ↔ c.id1_value = c.id2_value))) ∧
    (∀ (h1 h2 h1' h2' : Hero) (c c' : CategoryResult),
      c ∈ compareCategories h1 h2 → c' ∈ compareCategories h1' h2' →
      c.id1_value = c'.id1_value → c.id2_value = c'.id2_value →
      c.winner = c'.winner) := by
  have key : ∀ (h1 h2 : Hero) (c : CategoryResult), c ∈ compareCategories h1 h2 →
      c.winner = winnerIf c.id1_value c.id2_value := by
    intro h1 h2 c hc
    rcases mem_compareCategories hc with ⟨cat, rfl⟩
    rfl
  refine ⟨fun h1 h2 c hc => ?_, fun h1 h2 h1' h2' c c' hc hc' hv1 hv2 => ?_⟩
  · rw [key h1 h2 c hc]
    exact ⟨winnerIf_eq_first _ _, winnerIf_eq_second _ _, winnerIf_eq_tie _ _⟩
  · rw [key h1 h2 c hc, key h1' h2' c' hc', hv1, hv2]

/-- C1 witness: the intelligence category of the demo comparison,
100 vs 90, has winner `1` iff 100 > 90. -/
theorem c1_per_category_winner_witness :
    (⟨"intelligence", .num 1, 100, 90⟩ : CategoryResult).winner = .num 1 ↔
      (100 : Int) > 90 :=
  (c1_per_category_winner.1 heroA heroB ⟨"intelligence", .num 1, 100, 90⟩
    (by decide)).1

/-! ## C2 -/

/-- C2: in every comparison result, with `winsA` the number of categories
whose winner is `1` and `winsB` the number whose winner is `2` (ties counted
by neither), the overall winner is `1` iff `winsA > winsB`, `2` iff
`winsB > winsA`, and `'tie'` iff `winsA = winsB`. -/
theorem c2_overall_tally (i1 i2 : JsNum) (h1 h2 : Hero) :
    ((compareResult i1 i2 h1 h2).overall_winner = .num 1 ↔
      id1WinsOf (compareResult i1 i2 h1 h2).categories >
        id2WinsOf (compareResult i1 i2 h1 h2).categories) ∧
    ((compareResult i1 i2 h1 h2).overall_winner = .num 2 ↔
      id2WinsOf (compareResult i1 i2 h1 h2).categories >
        id1WinsOf (compareResult i1 i2 h1 h2).categories) ∧
    ((compareResult i1 i2 h1 h2).overall_winner = .str "tie" ↔
      id1WinsOf (compareResult i1 i2 h1 h2).categories =
        id2WinsOf (compareResult i1 i2 h1 h2).categories) := by
  have e1 : (compareResult i1 i2 h1 h2).overall_winner =
      overallWinner (compareCategories h1 h2) := rfl
  have e2 : (compareResult i1 i2 h1 h2).categories =
      compareCategories h1 h2 := rfl
  rw [e1, e2]
  unfold overallWinner
  split_ifs <;> refine ⟨?_, ?_, ?_⟩ <;> simp_all <;> omega

/-! ## C5 -/

/-- The mirror action on a winner tag: `1` and `2` swap, everything else
(in particular `'tie'`) is fixed. -/
def flipWinner (w : JsonVal) : JsonVal :=
  if w = .num 1 then .num 2 else if w = .num 2 then .num 1 else w

/-- The mirror action on a category record: winner flipped, the two
values swapped, the name kept. -/
def flipCat (c : CategoryResult) : CategoryResult :=
  ⟨c.name, flipWinner c.winner, c.id2_value, c.id1_value⟩

lemma winnerIf_swap (a b : Int) : winnerIf b a = flipWinner (winnerIf a b) := by
  unfold winnerIf flipWinner
  rcases lt_trichotomy a b with h | h | h
  · simp [h, lt_asymm h]
  · simp [h, lt_irrefl]
  · simp [h, lt_asymm h]

lemma compareCat_swap (h1 h2 : Hero) (cat : Category) :
    compareCat h2 h1 cat = flipCat (compareCat h1 h2 cat) := by
  simp only [compareCat, flipCat]
  rw [winnerIf_swap]

lemma compareCategories_swap (h1 h2 : Hero) :
    compareCategories h2 h1 = (compareCategories h1 h2).map flipCat := by
  unfold compareCategories
  rw [List.map_map]
  congr 1
  funext cat
  exact compareCat_swap h1 h2 cat

lemma flipWinner_eq_first (w : JsonVal) :
    (flipWinner w = .num 1) ↔ (w = .num 2) := by
  unfold flipWinner
  split_ifs <;> simp_all

lemma flipWinner_eq_second (w : JsonVal) :
    (flipWinner w = .num 2) ↔ (w = .num 1) := by
  unfold flipWinner
  split_ifs <;> simp_all

lemma id1WinsOf_map_flip (cats : List CategoryResult) :
    id1WinsOf (cats.map flipCat) = id2WinsOf cats := by
  unfold id1WinsOf id2WinsOf
  rw [List.countP_map]
  congr 1
  funext c
  exact decide_eq_decide.mpr (flipWinner_eq_first c.winner)

lemma id2WinsOf_map_flip (cats : List CategoryResult) :
    id2WinsOf (cats.map flipCat) = id1WinsOf cats := by
  unfold id1WinsOf id2WinsOf
  rw [List.countP_map]
  congr 1
  funext c
  exact decide_eq_decide.mpr (flipWinner_eq_second c.winner)

lemma overallWinner_map_flip (cats : List CategoryResult) :
    overallWinner (cats.map flipCat) = flipWinner (overallWinner cats) := by
  unfold overallWinner
  rw [id1WinsOf_map_flip, id2WinsOf_map_flip]
  unfold flipWinner
  split_ifs <;> simp_all <;> omega

/-- C5: `compare(A,B)` and `compare(B,A)` are category-wise mirror images:
the category list of the swapped comparison is the original list with each
record's winner flipped (`1`↔`2`, `'tie'` fixed), its two values swapped and
its name kept, in the same six-category order; the overall winner is the
flip of the original overall winner; and the list always has six entries. -/
theorem c5_mirror (i1 i2 : JsNum) (h1 h2 : Hero) :
    (compareResult i2 i1 h2 h1).categories =
      (compareResult i1 i2 h1 h2).categories.map flipCat ∧
    (compareResult i2 i1 h2 h1).overall_winner =
      flipWinner (compareResult i1 i2 h1 h2).overall_winner ∧
    (compareResult i1 i2 h1 h2).categories.length = 6 := by
  refine ⟨compareCategories_swap h1 h2, ?_, rfl⟩
  show overallWinner (compareCategories h2 h1) =
    flipWinner (overallWinner (compareCategories h1 h2))
  rw [compareCategories_swap h1 h2, overallWinner_map_flip]

/-! ## Inversion of the compare endpoint -/

lemma compareEndpoint_ok_inv {load : LoadResult} {q1 q2 : Option String}
    {r : ComparisonResult} (h : compareEndpoint load q1 q2 = .ok r) :
    ∃ heroes v1 v2 hero1 hero2,
      load = .ok heroes ∧
      jsNumberOfQuery q1 = some v1 ∧ jsNumberOfQuery q2 = some v2 ∧
      heroes.find? (matchesId v1) = some hero1 ∧
      heroes.find? (matchesId v2) = some hero2 ∧
      r = compareResult v1 v2 hero1 hero2 := by
  unfold compareEndpoint at h
  cases hq1 : jsNumberOfQuery q1 with
  | none => simp [hq1] at h
  | some v1 =>
    cases hq2 : jsNumberOfQuery q2 with
    | none => simp [hq1, hq2] at h
    | some v2 =>
      simp only [hq1, hq2] at h
      cases load with
      | err => simp at h
      | ok heroes =>
        cases hf1 : heroes.find? (matchesId v1) with
        | none => simp [hf1] at h
        | some hero1 =>
          cases hf2 : heroes.find? (matchesId v2) with
          | none => simp [hf1, hf2] at h
          | some hero2 =>
            simp only [hf1, hf2] at h
            cases h
            exact ⟨heroes, v1, v2, hero1, hero2, rfl, rfl, rfl, hf1, hf2, rfl⟩

/-! ## C6 -/

lemma compareCat_self_tie (h : Hero) (cat : Category) :
    (compareCat h h cat).winner = .str "tie" := by
  simp only [compareCat, compareCat_winner_eq]
  exact (winnerIf_eq_tie _ _).mpr rfl

lemma overallWinner_self (h : Hero) :
    overallWinner (compareCategories h h) = .str "tie" := by
  have hall : ∀ c ∈ compareCategories h h, c.winner = JsonVal.str "tie" := by
    intro c hc
    rcases mem_compareCategories hc with ⟨cat, rfl⟩
    exact compareCat_self_tie h cat
  unfold overallWinner id1WinsOf id2WinsOf
  rw [List.countP_eq_zero.mpr, List.countP_eq_zero.mpr]
  · simp
  · intro c hc
    simp [hall c hc]
  · intro c hc
    simp [hall c hc]

/-- C6: whenever the compare endpoint is called with the same identifier
twice and succeeds, every one of the six category records has winner
`'tie'` and the overall winner is `'tie'`. -/
theorem c6_self_comparison_tie (load : LoadResult) (q : Option String)
    (r : ComparisonResult) (h : compareEndpoint load q q = .ok r) :
    r.categories.map CategoryResult.winner =
      List.replicate 6 (JsonVal.str "tie") ∧
    r.overall_winner = .str "tie" := by
  rcases compareEndpoint_ok_inv h with
    ⟨heroes, v1, v2, hero1, hero2, _, hq1, hq2, hf1, hf2, rfl⟩
  have hv : v1 = v2 := by rw [hq1] at hq2; exact (Option.some.injEq _ _).mp hq2
  subst hv
  have hh : hero1 = hero2 := by
    rw [hf1] at hf2
    exact (Option.some.injEq _ _).mp hf2
  subst hh
  constructor
  · have : ∀ c ∈ compareCategories hero1 hero1,
        c.winner = JsonVal.str "tie" := by
      intro c hc
      rcases mem_compareCategories hc with ⟨cat, rfl⟩
      exact compareCat_self_tie hero1 cat
    show (compareCategories hero1 hero1).map CategoryResult.winner = _
    unfold compareCategories categoriesOrder
    simp [compareCat_self_tie, List.replicate]
  · exact overallWinner_self hero1

/-- C6 witness: the self-comparison of hero 1 in the demo catalog succeeds
and is all ties. -/
theorem c6_self_comparison_tie_witness :
    (⟨.finite 1 0, .finite 1 0,
      [⟨"intelligence", .str "tie", 100, 100⟩, ⟨"strength", .str "tie", 18, 18⟩,
       ⟨"speed", .str "tie", 23, 23⟩, ⟨"durability", .str "tie", 28, 28⟩,
       ⟨"power", .str "tie", 32, 32⟩, ⟨"combat", .str "tie", 32, 32⟩],
      .str "tie"⟩ : ComparisonResult).categories.map CategoryResult.winner =
        List.replicate 6 (JsonVal.str "tie") ∧
    (⟨.finite 1 0, .finite 1 0,
      [⟨"intelligence", .str "tie", 100, 100⟩, ⟨"strength", .str "tie", 18, 18⟩,
       ⟨"speed", .str "tie", 23, 23⟩, ⟨"durability", .str "tie", 28, 28⟩,
       ⟨"power", .str "tie", 32, 32⟩, ⟨"combat", .str "tie", 32, 32⟩],
      .str "tie"⟩ : ComparisonResult).overall_winner = .str "tie" :=
  c6_self_comparison_tie (.ok demoHeroes) (some "1") _ (by decide)

/-! ## C4 -/

/-- C4: every successful comparison response echoes the two parsed numeric
identifiers in `id1`/`id2`, carries exactly six category records named in
the canonical order `intelligence, strength, speed, durability, power,
combat`, and every winner field — per category and overall — is the number
`1`, the number `2`, or the string `"tie"`. -/
theorem c4_success_shape (load : LoadResult) (q1 q2 : Option String)
    (r : ComparisonResult) (h : compareEndpoint load q1 q2 = .ok r) :
    jsNumberOfQuery q1 = some r.id1 ∧ jsNumberOfQuery q2 = some r.id2 ∧
    r.categories.map CategoryResult.name =
      ["intelligence", "strength", "speed", "durability", "power", "combat"] ∧
    r.categories.length = 6 ∧
    (∀ c ∈ r.categories,
      c.winner = .num 1 ∨ c.winner = .num 2 ∨ c.winner = .str "tie") ∧
    (r.overall_winner = .num 1 ∨ r.overall_winner = .num 2 ∨
      r.overall_winner = .str "tie") := by
  rcases compareEndpoint_ok_inv h with
    ⟨heroes, v1, v2, hero1, hero2, _, hq1, hq2, _, _, rfl⟩
  refine ⟨hq1, hq2, rfl, rfl, ?_, overallWinner_cases _⟩
  intro c hc
  rcases mem_compareCategories hc with ⟨cat, rfl⟩
  rw [compareCat_winner_eq]
  exact winnerIf_cases _ _

/-- C4 witness: the demo comparison of heroes 1 and 2 succeeds and its
response has the required shape. -/
theorem c4_success_shape_witness :
    jsNumberOfQuery (some "1") =
      some (⟨.finite 1 0, .finite 2 0,
        [⟨"intelligence", .num 1, 100, 90⟩, ⟨"strength", .num 2, 18, 55⟩,
         ⟨"speed", .num 2, 23, 43⟩, ⟨"durability", .num 2, 28, 80⟩,
         ⟨"power", .num 2, 32, 62⟩, ⟨"combat", .num 2, 32, 82⟩],
        .num 2⟩ : ComparisonResult).id1 ∧
    jsNumberOfQuery (some "2") =
      some (⟨.finite 1 0, .finite 2 0,
        [⟨"intelligence", .num 1, 100, 90⟩, ⟨"strength", .num 2, 18, 55⟩,
         ⟨"speed", .num 2, 23, 43⟩, ⟨"durability", .num 2, 28, 80⟩,
         ⟨"power", .num 2, 32, 62⟩, ⟨"combat", .num 2, 32, 82⟩],
        .num 2⟩ : ComparisonResult).id2 ∧
    (⟨.finite 1 0, .finite 2 0,
      [⟨"intelligence", .num 1, 100, 90⟩, ⟨"strength", .num 2, 18, 55⟩,
       ⟨"speed", .num 2, 23, 43⟩, ⟨"durability", .num 2, 28, 80⟩,
       ⟨"power", .num 2, 32, 62⟩, ⟨"combat", .num 2, 32, 82⟩],
      .num 2⟩ : ComparisonResult).categories.map CategoryResult.name =
      ["intelligence", "strength", "speed", "durability", "power", "combat"] ∧
    (⟨.finite 1 0, .finite 2 0,
      [⟨"intelligence", .num 1, 100, 90⟩, ⟨"strength", .num 2, 18, 55⟩,
       ⟨"speed", .num 2, 23, 43⟩, ⟨"durability", .num 2, 28, 80⟩,
       ⟨"power", .num 2, 32, 62⟩, ⟨"combat", .num 2, 32, 82⟩],
      .num 2⟩ : ComparisonResult).categories.length = 6 ∧
    (∀ c ∈ (⟨.finite 1 0, .finite 2 0,
      [⟨"intelligence", .num 1, 100, 90⟩, ⟨"strength", .num 2, 18, 55⟩,
       ⟨"speed", .num 2, 23, 43⟩, ⟨"durability", .num 2, 28, 80⟩,
       ⟨"power", .num 2, 32, 62⟩, ⟨"combat", .num 2, 32, 82⟩],
      .num 2⟩ : ComparisonResult).categories,
      c.winner = .num 1 ∨ c.winner = .num 2 ∨ c.winner = .str "tie") ∧
    ((⟨.finite 1 0, .finite 2 0,
      [⟨"intelligence", .num 1, 100, 90⟩, ⟨"strength", .num 2, 18, 55⟩,
       ⟨"speed", .num 2, 23, 43⟩, ⟨"durability", .num 2, 28, 80⟩,
       ⟨"power", .num 2, 32, 62⟩, ⟨"combat", .num 2, 32, 82⟩],
      .num 2⟩ : ComparisonResult).overall_winner = .num 1 ∨
     (⟨.finite 1 0, .finite 2 0,
      [⟨"intelligence", .num 1, 100, 90⟩, ⟨"strength", .num 2, 18, 55⟩,
       ⟨"speed", .num 2, 23, 43⟩, ⟨"durability", .num 2, 28, 80⟩,
       ⟨"power", .num 2, 32, 62⟩, ⟨"combat", .num 2, 32, 82⟩],
      .num 2⟩ : ComparisonResult).overall_winner = .num 2 ∨
     (⟨.finite 1 0, .finite 2 0,
      [⟨"intelligence", .num 1, 100, 90⟩, ⟨"strength", .num 2, 18, 55⟩,
       ⟨"speed", .num 2, 23, 43⟩, ⟨"durability", .num 2, 28, 80⟩,
       ⟨"power", .num 2, 32, 62⟩, ⟨"combat", .num 2, 32, 82⟩],
      .num 2⟩ : ComparisonResult).overall_winner = .str "tie") :=
  c4_success_shape (.ok demoHeroes) (some "1") (some "2") _ (by decide)

/-! ## C3 (corrected: `Number("")` is `0`, not NaN) -/

/-- C3 counterexample: `compare(1, "")` is not a validation failure.
`Number("")` evaluates to `0`, so the `isNaN` guard passes, the catalog is
consulted, and — no demo hero having id `0` — the outcome is the not-found
failure, not the validation failure the claim requires. -/
theorem c3_empty_string_counterexample :
    jsNumberOfQuery (some "") = some (JsNum.finite 0 0) ∧
    compareEndpoint (.ok demoHeroes) (some "1") (some "") =
      .notFound "Superhero not found" ∧
    compareEndpoint (.ok demoHeroes) (some "1") (some "") ≠
      .validationError
        "Both id1 and id2 query parameters must be valid numbers." := by
  refine ⟨by decide, by decide, ?_⟩
  intro h
  exact absurd h (by decide)

/-- C3 amended: the compare endpoint yields the validation failure exactly
when `Number` coercion of either query parameter (absent ⇒ `undefined` ⇒
NaN) is NaN, and in that case the outcome is decided before the catalog is
consulted: it is the same for every load result.  The empty string is not
such a case: it coerces to the number `0`. -/
theorem c3_validation_before_lookup (load load' : LoadResult)
    (q1 q2 : Option String) :
    (compareEndpoint load q1 q2 =
        .validationError
          "Both id1 and id2 query parameters must be valid numbers." ↔
      jsNumberOfQuery q1 = none ∨ jsNumberOfQuery q2 = none) ∧
    ((jsNumberOfQuery q1 = none ∨ jsNumberOfQuery q2 = none) →
      compareEndpoint load q1 q2 = compareEndpoint load' q1 q2) ∧
    jsNumberOfQuery (some "") = some (JsNum.finite 0 0) := by
  refine ⟨?_, ?_, by decide⟩ <;>
    · unfold compareEndpoint
      cases hq1 : jsNumberOfQuery q1 with
      | none => simp
      | some v1 =>
        cases hq2 : jsNumberOfQuery q2 with
        | none => simp
        | some v2 =>
          cases load with
          | err => simp
          | ok heroes =>
            cases hf1 : heroes.find? (matchesId v1) <;>
              cases hf2 : heroes.find? (matchesId v2) <;> simp [hf1, hf2]

/-- C3 amended witness: with `id2` absent the outcome is load-independent
(the validation failure fires before any lookup). -/
theorem c3_validation_before_lookup_witness :
    compareEndpoint (.ok demoHeroes) (some "1") none =
      compareEndpoint .err (some "1") none :=
  (c3_validation_before_lookup (.ok demoHeroes) .err (some "1") none).2.1
    (Or.inr rfl)

/-! ## C7 -/

/-- C7: when both query parameters coerce to numbers but at least one of
them matches no catalog record, the outcome is exactly the not-found
failure `"Superhero not found"` — one fixed outcome that does not reveal
which of the two lookups missed, and never a success. -/
theorem c7_lookup_miss_not_found (heroes : List Hero) (q1 q2 : Option String)
    (v1 v2 : JsNum)
    (hq1 : jsNumberOfQuery q1 = some v1) (hq2 : jsNumberOfQuery q2 = some v2)
    (hmiss : heroes.find? (matchesId v1) = none ∨
      heroes.find? (matchesId v2) = none) :
    compareEndpoint (.ok heroes) q1 q2 = .notFound "Superhero not found" := by
  unfold compareEndpoint
  simp only [hq1, hq2]
  rcases hmiss with h | h <;>
    cases hf1 : heroes.find? (matchesId v1) <;>
      cases hf2 : heroes.find? (matchesId v2) <;> simp_all

/-- C7 witness: id 999 is absent from the demo catalog, so comparing 1
with 999 is a not-found failure. -/
theorem c7_lookup_miss_not_found_witness :
    compareEndpoint (.ok demoHeroes) (some "1") (some "999") =
      .notFound "Superhero not found" :=
  c7_lookup_miss_not_found demoHeroes (some "1") (some "999")
    (.finite 1 0) (.finite 999 0) (by decide) (by decide) (Or.inr (by decide))

/-! ## C8 -/

/-- C8: when loading the catalog fails, the compare endpoint (once its
input validation passes), the single-hero endpoint, the powerstats endpoint
and the list endpoint all yield the internal-error outcome, which is a
different outcome from every not-found outcome. -/
theorem c8_accessor_failure_internal (q1 q2 : Option String) (v1 v2 : JsNum)
    (id : String)
    (hq1 : jsNumberOfQuery q1 = some v1)
    (hq2 : jsNumberOfQuery q2 = some v2) :
    compareEndpoint .err q1 q2 = .internalError ∧
    getSuperheroEndpoint .err id = .internalError ∧
    getPowerstatsEndpoint .err id = .internalError ∧
    getAllEndpoint .err = .internalError ∧
    (∀ msg, CompareOutcome.internalError ≠ CompareOutcome.notFound msg ∧
      EntityOutcome.internalError ≠ EntityOutcome.notFound msg ∧
      StatsOutcome.internalError ≠ StatsOutcome.notFound msg) := by
  refine ⟨?_, rfl, rfl, rfl, fun msg => ⟨by simp, by simp, by simp⟩⟩
  unfold compareEndpoint
  simp only [hq1, hq2]

/-- C8 witness: the accessor-failure outcomes at concrete inputs. -/
theorem c8_accessor_failure_internal_witness :
    compareEndpoint .err (some "1") (some "2") = .internalError ∧
    getSuperheroEndpoint .err "1" = .internalError ∧
    getPowerstatsEndpoint .err "1" = .internalError ∧
    getAllEndpoint .err = .internalError ∧
    CompareOutcome.internalError ≠ CompareOutcome.notFound "Superhero not found" :=
  have h := c8_accessor_failure_internal (some "1") (some "2")
    (.finite 1 0) (.finite 2 0) "1" (by decide) (by decide)
  ⟨h.1, h.2.1, h.2.2.1, h.2.2.2.1, (h.2.2.2.2 "Superhero not found").1⟩

/-! ## C9 -/

/-- C9: for every catalog and identifier string, the powerstats endpoint
either finds a hero by string-rendered id and returns that hero's
`powerstats` object alone (a bare `Statline` of the six category values,
with no id or name), or finds none and returns the not-found failure. -/
theorem c9_powerstats_projection (heroes : List Hero) (id : String) :
    (∃ hero, heroes.find? (matchesIdString id) = some hero ∧
      getPowerstatsEndpoint (.ok heroes) id = .ok hero.powerstats) ∨
    (heroes.find? (matchesIdString id) = none ∧
      getPowerstatsEndpoint (.ok heroes) id =
        .notFound "Superhero not found") := by
  unfold getPowerstatsEndpoint
  cases hf : heroes.find? (matchesIdString id) with
  | some hero => exact Or.inl ⟨hero, rfl, by simp [hf]⟩
  | none => exact Or.inr ⟨rfl, by simp [hf]⟩

/-! ## C10 -/

/-- C10: the compare endpoint resolves identifiers by numeric equality with
the `Number`-coercion of the input (`h.id === Number(q)`), while the
single-hero and powerstats endpoints resolve by string equality with the
decimal rendering of the stored id (`String(hero.id) === String(q)`).
The two relations differ: against a catalog holding only the hero with id
10, the strings `"1e1"` and `" 10"` both coerce to the number 10, so the
compare endpoint resolves them (here to the all-tie self-comparison), while
the single-hero and powerstats endpoints report not-found for both. -/
theorem c10_resolution_divergence :
    jsNumberOfQuery (some "1e1") = some (JsNum.ofInt 10) ∧
    jsNumberOfQuery (some " 10") = some (JsNum.ofInt 10) ∧
    compareEndpoint (.ok [heroTen]) (some "1e1") (some " 10") =
      .ok ⟨JsNum.ofInt 10, JsNum.ofInt 10,
        [⟨"intelligence", .str "tie", 1, 1⟩, ⟨"strength", .str "tie", 2, 2⟩,
         ⟨"speed", .str "tie", 3, 3⟩, ⟨"durability", .str "tie", 4, 4⟩,
         ⟨"power", .str "tie", 5, 5⟩, ⟨"combat", .str "tie", 6, 6⟩],
        .str "tie"⟩ ∧
    getSuperheroEndpoint (.ok [heroTen]) "1e1" =
      .notFound "Superhero not found" ∧
    getSuperheroEndpoint (.ok [heroTen]) " 10" =
      .notFound "Superhero not found" ∧
    getPowerstatsEndpoint (.ok [heroTen]) "1e1" =
      .notFound "Superhero not found" ∧
    getPowerstatsEndpoint (.ok [heroTen]) " 10" =
      .notFound "Superhero not found" ∧
    getSuperheroEndpoint (.ok [heroTen]) "10" = .ok heroTen := by
  decide
